import Mathlib

/-!
# Session/token lifecycle subsystem of Sene4ka/cloud_storage — shallow embedding

This file embeds, in Lean, the Token Codec (`internal/utils` JWT manager) and
the Session Manager (`internal/auth/server.go`) of the repository, and proves
properties of the embedded operations.

Modelling conventions:
* Time is `Nat` (unix seconds), passed explicitly as `now`.
* A JWT string is modelled by `TokenStr`: either a well-formed signed token
  (its claims, the signing algorithm, and the key it was signed with) or a
  malformed string.  Distinct `TokenStr` values correspond to distinct strings
  (the JWT encoding is injective), so redis string equality is `TokenStr`
  equality.
* `uuid.New()` freshness is modelled by a monotone counter `nextId` threaded
  through the server state; each issued token id (`jti`) and user id consumes
  the counter.
* The redis session store is modelled inside `ServerState`:
  `activeRefresh` maps a user id to its stored refresh token together with the
  absolute expiry instant of the redis key (TTL semantics: a `GET` at time
  `now` sees the entry iff `now < expiry`); `revoked` is the blacklist, each
  entry carrying the absolute instant its redis TTL runs out.
* Storage faults are modelled only where a claim needs them: `register` takes
  two flags for the fallible steps after the user row has been persisted
  (token generation, redis SET of the refresh token).  All other operations
  are embedded on the fault-free path.
-/

/-- JWT signing algorithms relevant to the verifier's pinning check. -/
inductive Alg where
  | HS256
  | HS384
  | HS512
  | RS256
  | algNone
  deriving DecidableEq, Repr

/-- `token.Method.(*jwt.SigningMethodHMAC)` type assertion: the HMAC family. -/
def Alg.isHMAC : Alg → Bool
  | .HS256 => true
  | .HS384 => true
  | .HS512 => true
  | _ => false

/-- The claims payload (`utils.TokenClaims`): user id, email, token type
(`"access"`/`"refresh"` as a free string, as in the Go code), registered
claims `exp`, `iat`, and the per-issuance unique id `jti`. -/
structure TokenClaims where
  userID : String
  email : String
  type : String
  expiresAt : Nat
  issuedAt : Nat
  jti : Nat
  deriving DecidableEq, Repr

/-- A token string: a signed JWT (claims, algorithm, signing key) or a string
that does not parse as a JWT at all. -/
inductive TokenStr where
  | signed (claims : TokenClaims) (alg : Alg) (key : String)
  | malformed (raw : String)
  deriving DecidableEq, Repr

/-- JWT configuration (`configs.Config.JWT`): secret and the two TTLs. -/
structure Config where
  secret : String
  accessTTL : Nat
  refreshTTL : Nat
  deriving DecidableEq, Repr

/-- `JWTManager.ValidateToken`: parse+verify.  The keyfunc rejects any
non-HMAC method; an HMAC-family signature is checked against the manager's
secret; the registered-claims validator rejects an expired token
(valid iff `now ≤ exp`). -/
def validateToken (secret : String) (now : Nat) : TokenStr → Except String TokenClaims
  | .malformed _ => .error "failed to parse token: malformed"
  | .signed claims alg key =>
    if !alg.isHMAC then
      .error "failed to parse token: unexpected signing method"
    else if key ≠ secret then
      .error "failed to parse token: signature is invalid"
    else if claims.expiresAt < now then
      .error "failed to parse token: token is expired"
    else
      .ok claims

/-- `JWTManager.ValidateAccessToken`: `ValidateToken` then `Type == "access"`. -/
def validateAccessToken (secret : String) (now : Nat) (tok : TokenStr) :
    Except String TokenClaims :=
  match validateToken secret now tok with
  | .error e => .error e
  | .ok claims =>
    if claims.type ≠ "access" then
      .error "invalid token type: expected access"
    else
      .ok claims

/-- `JWTManager.ValidateRefreshToken`: `ValidateToken` then `Type == "refresh"`. -/
def validateRefreshToken (secret : String) (now : Nat) (tok : TokenStr) :
    Except String TokenClaims :=
  match validateToken secret now tok with
  | .error e => .error e
  | .ok claims =>
    if claims.type ≠ "refresh" then
      .error "invalid token type: expected refresh"
    else
      .ok claims

/-- `JWTManager.GenerateTokenPair`: two HS256 tokens signed with the secret,
fresh `jti`s from the counter, `exp = now + TTL`.  Returns
`(accessToken, refreshToken, new counter)`. -/
def generateTokenPair (cfg : Config) (now : Nat) (nextId : Nat)
    (userID email : String) : TokenStr × TokenStr × Nat :=
  let accessClaims : TokenClaims :=
    ⟨userID, email, "access", now + cfg.accessTTL, now, nextId⟩
  let refreshClaims : TokenClaims :=
    ⟨userID, email, "refresh", now + cfg.refreshTTL, now, nextId + 1⟩
  (.signed accessClaims .HS256 cfg.secret,
   .signed refreshClaims .HS256 cfg.secret,
   nextId + 2)

/-- A principal row (`models.User`): id, email, bcrypt password hash, name. -/
structure User where
  id : String
  email : String
  passwordHash : String
  name : String
  deriving DecidableEq, Repr

/-- One-way password hash (modelled; `bcrypt.GenerateFromPassword`). -/
def bcryptHash (password : String) : String :=
  "bcrypt$" ++ password

/-- `User.CheckPassword` (`bcrypt.CompareHashAndPassword`). -/
def checkPassword (u : User) (password : String) : Bool :=
  u.passwordHash == bcryptHash password

/-- Combined external state seen by the auth server: the user table
(credential store) and the redis session store, plus the uuid counter. -/
structure ServerState where
  users : List (String × User)
  activeRefresh : List (String × TokenStr × Nat)
  revoked : List (TokenStr × Nat)
  nextId : Nat
  deriving DecidableEq, Repr

/-- `UserRepository.GetByEmail`. -/
def lookupUser (users : List (String × User)) (email : String) : Option User :=
  match users.find? (fun e => e.1 == email) with
  | some e => some e.2
  | none => none

/-- `UserRepository.ExistsByEmail`. -/
def existsByEmail (users : List (String × User)) (email : String) : Bool :=
  users.any (fun e => e.1 == email)

/-- redis `GET refresh:<uid>` at time `now` (an expired key reads as absent). -/
def getRefresh (st : ServerState) (now : Nat) (uid : String) : Option TokenStr :=
  match st.activeRefresh.find? (fun e => e.1 == uid) with
  | some e => if now < e.2.2 then some e.2.1 else none
  | none => none

/-- redis `SET refresh:<uid> tok` with absolute expiry `exp` (overwrite). -/
def setRefresh (st : ServerState) (uid : String) (tok : TokenStr) (exp : Nat) :
    ServerState :=
  { st with activeRefresh :=
      (uid, tok, exp) :: st.activeRefresh.filter (fun e => e.1 != uid) }

/-- redis `DEL refresh:<uid>`. -/
def delRefresh (st : ServerState) (uid : String) : ServerState :=
  { st with activeRefresh := st.activeRefresh.filter (fun e => e.1 != uid) }

/-- redis `EXISTS blacklist:<tok>` at time `now`. -/
def isBlacklisted (st : ServerState) (now : Nat) (tok : TokenStr) : Bool :=
  st.revoked.any (fun e => e.1 == tok && now < e.2)

/-- redis `SET blacklist:<tok> "1"` with absolute expiry `exp`. -/
def addBlacklist (st : ServerState) (tok : TokenStr) (exp : Nat) : ServerState :=
  { st with revoked := (tok, exp) :: st.revoked }

/-- The auth error taxonomy as produced by `internal/auth/server.go`
(`fmt.Errorf` messages, wrapping collapsed to the distinguishing shape). -/
inductive AuthErr where
  | alreadyExists
  | invalidCredentials
  | tokenGenFailed
  | storeRefreshFailed
  | blacklisted
  | invalidToken (inner : String)
  | notFound
  | mismatch
  deriving DecidableEq, Repr

/-- `api.RegisterResponse` / `api.LoginResponse` payload. -/
structure IssueResponse where
  userId : String
  email : String
  name : String
  accessToken : TokenStr
  accessExpiresIn : Nat
  refreshToken : TokenStr
  refreshExpiresIn : Nat
  deriving DecidableEq, Repr

/-- `api.RefreshResponse` payload. -/
structure RefreshResponse where
  accessToken : TokenStr
  accessExpiresIn : Nat
  refreshToken : TokenStr
  refreshExpiresIn : Nat
  deriving DecidableEq, Repr

/-- `api.ValidateTokenResponse` payload. -/
structure ValidateResponse where
  valid : Bool
  userId : String
  email : String
  expiresIn : Int
  deriving DecidableEq, Repr

/-- `api.LogoutResponse` payload. -/
structure LogoutResponse where
  success : Bool
  deriving DecidableEq, Repr

/-- `Server.Login`: look up by email (`invalid credentials` if absent), check
the password hash (`invalid credentials` if it fails), generate a pair, and
unconditionally overwrite `refresh:<uid>` with TTL = refresh lifetime. -/
def login (cfg : Config) (st : ServerState) (now : Nat)
    (email password : String) : Except AuthErr IssueResponse × ServerState :=
  match lookupUser st.users email with
  | none => (.error .invalidCredentials, st)
  | some user =>
    if !checkPassword user password then
      (.error .invalidCredentials, st)
    else
      let gen := generateTokenPair cfg now st.nextId user.id user.email
      let st1 := { st with nextId := gen.2.2 }
      let st2 := setRefresh st1 user.id gen.2.1 (now + cfg.refreshTTL)
      (.ok ⟨user.id, user.email, user.name, gen.1, cfg.accessTTL,
            gen.2.1, cfg.refreshTTL⟩, st2)

/-- `Server.Register`: existence check, create+persist the user row, then the
Login-style issuance.  `tokenGenOk` and `storeOk` are the fault switches for
the two fallible steps that run after the user row has been persisted. -/
def register (cfg : Config) (st : ServerState) (now : Nat)
    (email password name : String) (tokenGenOk storeOk : Bool) :
    Except AuthErr IssueResponse × ServerState :=
  if existsByEmail st.users email then
    (.error .alreadyExists, st)
  else
    let uid := "uid-" ++ toString st.nextId
    let user : User := ⟨uid, email, bcryptHash password, name⟩
    let st1 := { st with users := (email, user) :: st.users,
                         nextId := st.nextId + 1 }
    if !tokenGenOk then
      (.error .tokenGenFailed, st1)
    else
      let gen := generateTokenPair cfg now st1.nextId user.id user.email
      let st2 := { st1 with nextId := gen.2.2 }
      if !storeOk then
        (.error .storeRefreshFailed, st2)
      else
        let st3 := setRefresh st2 user.id gen.2.1 (now + cfg.refreshTTL)
        (.ok ⟨user.id, user.email, user.name, gen.1, cfg.accessTTL,
              gen.2.1, cfg.refreshTTL⟩, st3)

/-- `Server.Refresh`: blacklist check, token verification, stored-value
lookup, stored-value comparison, then rotation (new pair, overwrite). -/
def refresh (cfg : Config) (st : ServerState) (now : Nat) (tok : TokenStr) :
    Except AuthErr RefreshResponse × ServerState :=
  if isBlacklisted st now tok then
    (.error .blacklisted, st)
  else
    match validateRefreshToken cfg.secret now tok with
    | .error e => (.error (.invalidToken e), st)
    | .ok claims =>
      match getRefresh st now claims.userID with
      | none => (.error .notFound, st)
      | some stored =>
        if stored ≠ tok then
          (.error .mismatch, st)
        else
          let gen := generateTokenPair cfg now st.nextId claims.userID claims.email
          let st1 := { st with nextId := gen.2.2 }
          let st2 := setRefresh st1 claims.userID gen.2.1 (now + cfg.refreshTTL)
          (.ok ⟨gen.1, cfg.accessTTL, gen.2.1, cfg.refreshTTL⟩, st2)

/-- `Server.ValidateToken`: validate as access token; `{valid:false}` on any
failure, `{valid:true, claims, remaining seconds}` on success.  Never an
error; reads no session state (it takes `st` only to exhibit that). -/
def validateTokenRPC (cfg : Config) (st : ServerState) (now : Nat)
    (tok : TokenStr) : Except AuthErr ValidateResponse × ServerState :=
  match validateAccessToken cfg.secret now tok with
  | .error _ => (.ok ⟨false, "", "", 0⟩, st)
  | .ok claims =>
    (.ok ⟨true, claims.userID, claims.email,
          (claims.expiresAt : Int) - (now : Int)⟩, st)

/-- `Server.Logout`: verify as refresh token (soft `{success:false}` on
failure); blacklist with the remaining TTL when positive; delete the
principal's stored refresh token. -/
def logout (cfg : Config) (st : ServerState) (now : Nat) (tok : TokenStr) :
    Except AuthErr LogoutResponse × ServerState :=
  match validateRefreshToken cfg.secret now tok with
  | .error _ => (.ok ⟨false⟩, st)
  | .ok claims =>
    let st1 := if now < claims.expiresAt then
                 addBlacklist st tok claims.expiresAt
               else st
    let st2 := delRefresh st1 claims.userID
    (.ok ⟨true⟩, st2)

/-- `true` when every token id appearing in the session store is below the
uuid counter — the freshness invariant that makes newly issued tokens
distinct from everything stored. -/
def jtiBelow (n : Nat) : TokenStr → Bool
  | .signed c _ _ => c.jti < n
  | .malformed _ => true

/-- Well-formedness of a server state: all stored and revoked tokens carry
ids below the counter. -/
def wf (st : ServerState) : Bool :=
  st.activeRefresh.all (fun e => jtiBelow st.nextId e.2.1) &&
  st.revoked.all (fun e => jtiBelow st.nextId e.1)

/-! Concrete demonstration values used by witnesses and counterexamples. -/

def demoCfg : Config := ⟨"sec", 15, 100⟩

def demoUser : User := ⟨"u1", "a@x", bcryptHash "pw", "A"⟩

def demoSt0 : ServerState := ⟨[("a@x", demoUser)], [], [], 0⟩

def demoAccessClaims : TokenClaims := ⟨"u1", "a@x", "access", 20, 5, 0⟩

def demoAccessTok : TokenStr := .signed demoAccessClaims .HS256 "sec"

def demoRevClaims : TokenClaims := ⟨"u1", "a@x", "refresh", 100, 0, 0⟩

def demoRevTok : TokenStr := .signed demoRevClaims .HS256 "sec"

/-- A state whose blacklist already holds `demoRevTok` and whose
`activeRefresh` is empty. -/
def demoStBlk : ServerState := ⟨[], [], [(demoRevTok, 100)], 1⟩

def hs384Claims : TokenClaims := ⟨"u1", "a@x", "access", 100, 0, 7⟩

/-- A well-formed, unexpired token signed with HS384 (an HMAC-family
algorithm other than the HS256 used at issuance) under the right secret. -/
def hs384Tok : TokenStr := .signed hs384Claims .HS384 "sec"

def dummyIssue : IssueResponse := ⟨"", "", "", .malformed "", 0, .malformed "", 0⟩

def dummyRefresh : RefreshResponse := ⟨.malformed "", 0, .malformed "", 0⟩

/-- State after `login demoCfg demoSt0 5 "a@x" "pw"`. -/
def demoSt1 : ServerState := (login demoCfg demoSt0 5 "a@x" "pw").2

/-- Response of `login demoCfg demoSt0 5 "a@x" "pw"`. -/
def demoResp1 : IssueResponse :=
  ((login demoCfg demoSt0 5 "a@x" "pw").1).toOption.getD dummyIssue

/-- State after a second `login` at time 6. -/
def demoSt2 : ServerState := (login demoCfg demoSt1 6 "a@x" "pw").2

/-- Response of the second `login`. -/
def demoResp2 : IssueResponse :=
  ((login demoCfg demoSt1 6 "a@x" "pw").1).toOption.getD dummyIssue

/-- State after a successful rotation of `demoResp1`'s refresh token. -/
def demoStRot : ServerState := (refresh demoCfg demoSt1 6 demoResp1.refreshToken).2

/-- Response of that successful rotation. -/
def demoRespRot : RefreshResponse :=
  ((refresh demoCfg demoSt1 6 demoResp1.refreshToken).1).toOption.getD dummyRefresh

/-! ## Helper lemmas -/

/-- Inversion for a successful refresh-token verification: the token is a
signed HMAC-family token under the manager's secret, unexpired, of type
`"refresh"`, and the returned claims are its own. -/
theorem validateRefreshToken_ok_inv (secret : String) (now : Nat)
    (tok : TokenStr) (c : TokenClaims)
    (h : validateRefreshToken secret now tok = .ok c) :
    ∃ alg, tok = .signed c alg secret ∧ alg.isHMAC = true ∧
      now ≤ c.expiresAt ∧ c.type = "refresh" := by
  cases tok with
  | malformed s => simp [validateRefreshToken, validateToken] at h
  | signed claims alg key =>
    refine ⟨alg, ?_⟩
    by_cases halg : alg.isHMAC = true
    · by_cases hkey : key = secret
      · subst hkey
        by_cases hexp : claims.expiresAt < now
        · simp [validateRefreshToken, validateToken, halg, hexp] at h
        · by_cases hty : claims.type = "refresh"
          · simp [validateRefreshToken, validateToken, halg, hexp, hty] at h
            subst h
            exact ⟨rfl, halg, Nat.le_of_not_lt hexp, hty⟩
          · simp [validateRefreshToken, validateToken, halg, hexp, hty] at h
      · simp [validateRefreshToken, validateToken, halg, hkey] at h
    · have halg2 : alg.isHMAC = false := by simpa using halg
      simp [validateRefreshToken, validateToken, halg2] at h

/-- Same inversion for access-token verification. -/
theorem validateAccessToken_ok_inv (secret : String) (now : Nat)
    (tok : TokenStr) (c : TokenClaims)
    (h : validateAccessToken secret now tok = .ok c) :
    ∃ alg, tok = .signed c alg secret ∧ alg.isHMAC = true ∧
      now ≤ c.expiresAt ∧ c.type = "access" := by
  cases tok with
  | malformed s => simp [validateAccessToken, validateToken] at h
  | signed claims alg key =>
    refine ⟨alg, ?_⟩
    by_cases halg : alg.isHMAC = true
    · by_cases hkey : key = secret
      · subst hkey
        by_cases hexp : claims.expiresAt < now
        · simp [validateAccessToken, validateToken, halg, hexp] at h
        · by_cases hty : claims.type = "access"
          · simp [validateAccessToken, validateToken, halg, hexp, hty] at h
            subst h
            exact ⟨rfl, halg, Nat.le_of_not_lt hexp, hty⟩
          · simp [validateAccessToken, validateToken, halg, hexp, hty] at h
      · simp [validateAccessToken, validateToken, halg, hkey] at h
    · have halg2 : alg.isHMAC = false := by simpa using halg
      simp [validateAccessToken, validateToken, halg2] at h

/-- A token whose id is at or above the counter is not in a well-formed
blacklist. -/
theorem isBlacklisted_fresh (st : ServerState) (now : Nat) (c : TokenClaims)
    (alg : Alg) (key : String)
    (hwf : st.revoked.all (fun e => jtiBelow st.nextId e.1) = true)
    (hjti : st.nextId ≤ c.jti) :
    isBlacklisted st now (.signed c alg key) = false := by
  rw [isBlacklisted, List.any_eq_false]
  intro e he
  rw [List.all_eq_true] at hwf
  have hb := hwf e he
  cases he1 : e.1 with
  | malformed s => simp [he1]
  | signed c2 a2 k2 =>
    rw [he1] at hb
    simp only [jtiBelow, decide_eq_true_eq] at hb
    have hne : (TokenStr.signed c2 a2 k2) ≠ (.signed c alg key) := by
      intro hc
      injection hc with h1 h2 h3
      subst h1
      omega
    simp [he1, hne]

/-! ## Claim theorems -/

/-- C2 counterexample: a token signed with HS384 — an algorithm other than
the HS256 pinned at issuance — with a well-formed unexpired payload is
*accepted* by the verifier, because the keyfunc only pins the HMAC family. -/
theorem hs384_token_accepted :
    Alg.HS384 ≠ Alg.HS256 ∧
    validateToken "sec" 10 hs384Tok = .ok hs384Claims ∧
    validateAccessToken "sec" 10 hs384Tok = .ok hs384Claims := by
  exact ⟨by decide, by rfl, by rfl⟩

/-- C2 (amended): the verifier rejects every token whose signing algorithm
is outside the pinned HMAC family (e.g. RS256 or none), regardless of
payload; algorithms inside the family are not rejected by the pin. -/
theorem nonHMAC_alg_rejected (secret : String) (now : Nat) (c : TokenClaims)
    (alg : Alg) (key : String) (h : alg.isHMAC = false) :
    validateToken secret now (.signed c alg key) =
      .error "failed to parse token: unexpected signing method" := by
  simp [validateToken, h]

/-- Witness for `nonHMAC_alg_rejected` at RS256. -/
theorem nonHMAC_alg_rejected_witness :
    validateToken "sec" 0 (.signed hs384Claims .RS256 "sec") =
      .error "failed to parse token: unexpected signing method" :=
  nonHMAC_alg_rejected "sec" 0 hs384Claims .RS256 "sec" (by decide)

/-- C7: the server's ValidateToken RPC never surfaces an error: it answers
`{valid:false}` (all other fields zero) whenever access-token verification
fails, answers `{valid:true, id, email, remaining seconds}` when it
succeeds, and neither reads nor writes the session state. -/
theorem validateTokenRPC_never_errors (cfg : Config) (st st2 : ServerState)
    (now : Nat) (tok : TokenStr) :
    (∃ resp, (validateTokenRPC cfg st now tok).1 = .ok resp) ∧
    (validateTokenRPC cfg st now tok).1 = (validateTokenRPC cfg st2 now tok).1 ∧
    (validateTokenRPC cfg st now tok).2 = st ∧
    (∀ e, validateAccessToken cfg.secret now tok = .error e →
      (validateTokenRPC cfg st now tok).1 = .ok ⟨false, "", "", 0⟩) ∧
    (∀ c, validateAccessToken cfg.secret now tok = .ok c →
      (validateTokenRPC cfg st now tok).1 =
        .ok ⟨true, c.userID, c.email, (c.expiresAt : Int) - (now : Int)⟩) := by
  cases hv : validateAccessToken cfg.secret now tok with
  | error e =>
    refine ⟨⟨⟨false, "", "", 0⟩, ?_⟩, ?_, ?_, ?_, ?_⟩ <;>
      simp [validateTokenRPC, hv]
  | ok c =>
    refine ⟨⟨⟨true, c.userID, c.email, (c.expiresAt : Int) - (now : Int)⟩, ?_⟩,
            ?_, ?_, ?_, ?_⟩ <;>
      simp [validateTokenRPC, hv]

/-- Witness for `validateTokenRPC_never_errors` on a live access token. -/
theorem validateTokenRPC_never_errors_witness :
    (validateTokenRPC demoCfg demoSt0 5 demoAccessTok).1 =
      .ok ⟨true, "u1", "a@x", 15⟩ :=
  (validateTokenRPC_never_errors demoCfg demoSt0 demoSt0 5
    demoAccessTok).2.2.2.2 demoAccessClaims (by rfl)

/-- C8: no operation but Logout touches the deny-list: Refresh (whatever its
outcome, in particular a successful rotation), Login, Register and the
ValidateToken RPC all leave `revoked` exactly as it was. -/
theorem refresh_preserves_revoked (cfg : Config) (st : ServerState)
    (now : Nat) (tok : TokenStr) (email pw name : String) (tg so : Bool) :
    (refresh cfg st now tok).2.revoked = st.revoked ∧
    (login cfg st now email pw).2.revoked = st.revoked ∧
    (register cfg st now email pw name tg so).2.revoked = st.revoked ∧
    (validateTokenRPC cfg st now tok).2.revoked = st.revoked := by
  refine ⟨?_, ?_, ?_, ?_⟩
  · rw [refresh]
    split
    · rfl
    · split
      · rfl
      · split
        · rfl
        · split
          · rfl
          · simp [setRefresh]
  · rw [login]
    split
    · rfl
    · split
      · rfl
      · simp [setRefresh]
  · rw [register]
    split
    · rfl
    · split
      · rfl
      · split
        · rfl
        · simp [setRefresh]
  · rw [validateTokenRPC]
    split
    · rfl
    · rfl

/-- C3: Refresh performs its checks in order, failing at the first failing
one — blacklist (`blacklisted`), verification (`invalidToken`), stored-entry
presence (`notFound`), stored-value comparison (`mismatch`) — and only when
all four pass does it issue a new pair and overwrite the stored entry. -/
theorem refresh_check_order (cfg : Config) (st : ServerState) (now : Nat)
    (tok : TokenStr) :
    (isBlacklisted st now tok = true →
      refresh cfg st now tok = (.error .blacklisted, st)) ∧
    (∀ e, isBlacklisted st now tok = false →
      validateRefreshToken cfg.secret now tok = .error e →
      refresh cfg st now tok = (.error (.invalidToken e), st)) ∧
    (∀ c, isBlacklisted st now tok = false →
      validateRefreshToken cfg.secret now tok = .ok c →
      getRefresh st now c.userID = none →
      refresh cfg st now tok = (.error .notFound, st)) ∧
    (∀ c stored, isBlacklisted st now tok = false →
      validateRefreshToken cfg.secret now tok = .ok c →
      getRefresh st now c.userID = some stored →
      stored ≠ tok →
      refresh cfg st now tok = (.error .mismatch, st)) ∧
    (∀ c, isBlacklisted st now tok = false →
      validateRefreshToken cfg.secret now tok = .ok c →
      getRefresh st now c.userID = some tok →
      refresh cfg st now tok =
        (.ok ⟨(generateTokenPair cfg now st.nextId c.userID c.email).1,
              cfg.accessTTL,
              (generateTokenPair cfg now st.nextId c.userID c.email).2.1,
              cfg.refreshTTL⟩,
         setRefresh { st with nextId := st.nextId + 2 } c.userID
           (generateTokenPair cfg now st.nextId c.userID c.email).2.1
           (now + cfg.refreshTTL))) := by
  refine ⟨?_, ?_, ?_, ?_, ?_⟩
  · intro hb
    simp [refresh, hb]
  · intro e hb hv
    simp [refresh, hb, hv]
  · intro c hb hv hg
    simp [refresh, hb, hv, hg]
  · intro c stored hb hv hg hne
    simp [refresh, hb, hv, hg, hne]
  · intro c hb hv hg
    simp [refresh, hb, hv, hg, generateTokenPair]

/-- Witness for `refresh_check_order`: the blacklist check fires first on a
blacklisted (otherwise valid and active-matching) token. -/
theorem refresh_check_order_witness :
    refresh demoCfg demoStBlk 10 demoRevTok = (.error .blacklisted, demoStBlk) :=
  (refresh_check_order demoCfg demoStBlk 10 demoRevTok).1 (by rfl)

/-- C9: a Login failing because the email is unknown and a Login failing
because the password check fails return the same `invalidCredentials` error
and leave the state untouched — the two causes are indistinguishable. -/
theorem login_failures_indistinguishable (cfg1 cfg2 : Config)
    (st1 st2 : ServerState) (now1 now2 : Nat) (e1 p1 e2 p2 : String)
    (u : User)
    (h1 : lookupUser st1.users e1 = none)
    (h2 : lookupUser st2.users e2 = some u)
    (h3 : checkPassword u p2 = false) :
    (login cfg1 st1 now1 e1 p1).1 = .error .invalidCredentials ∧
    (login cfg2 st2 now2 e2 p2).1 = .error .invalidCredentials ∧
    (login cfg1 st1 now1 e1 p1).1 = (login cfg2 st2 now2 e2 p2).1 ∧
    (login cfg1 st1 now1 e1 p1).2 = st1 ∧
    (login cfg2 st2 now2 e2 p2).2 = st2 := by
  have ha : login cfg1 st1 now1 e1 p1 = (.error .invalidCredentials, st1) := by
    simp [login, h1]
  have hb : login cfg2 st2 now2 e2 p2 = (.error .invalidCredentials, st2) := by
    simp [login, h2, h3]
  rw [ha, hb]
  exact ⟨rfl, rfl, rfl, rfl, rfl⟩

/-- Witness for `login_failures_indistinguishable`: unknown email `b@x`
versus wrong password for the existing `a@x`. -/
theorem login_failures_indistinguishable_witness :
    (login demoCfg demoSt0 0 "b@x" "zzz").1 = .error .invalidCredentials ∧
    (login demoCfg demoSt0 0 "a@x" "wrong").1 = .error .invalidCredentials :=
  ⟨(login_failures_indistinguishable demoCfg demoCfg demoSt0 demoSt0 0 0
      "b@x" "zzz" "a@x" "wrong" demoUser (by rfl) (by rfl) (by rfl)).1,
   (login_failures_indistinguishable demoCfg demoCfg demoSt0 demoSt0 0 0
      "b@x" "zzz" "a@x" "wrong" demoUser (by rfl) (by rfl) (by rfl)).2.1⟩

/-- C1 counterexample: Logout accepts (returns `success = true` for) a
refresh token that is already on the deny-list and matches no stored
`activeRefresh` entry — conditions (b) and (c) of the claimed invariant are
not checked by Logout. -/
theorem logout_accepts_blacklisted_token :
    (logout demoCfg demoStBlk 10 demoRevTok).1 = .ok ⟨true⟩ ∧
    isBlacklisted demoStBlk 10 demoRevTok = true ∧
    getRefresh demoStBlk 10 "u1" = none := by
  exact ⟨by rfl, by rfl, by rfl⟩

/-- C1 (amended): a token accepted by Refresh verifies cryptographically, is
absent from the deny-list, and equals the stored `activeRefresh` value of
the principal named in its claims; a token accepted by Logout is only
guaranteed to verify cryptographically as a Refresh-kind token. -/
theorem accepted_token_invariant (cfg : Config) (st : ServerState)
    (now : Nat) (tok : TokenStr) :
    (∀ resp st2, refresh cfg st now tok = (.ok resp, st2) →
      isBlacklisted st now tok = false ∧
      ∃ c, validateRefreshToken cfg.secret now tok = .ok c ∧
        getRefresh st now c.userID = some tok) ∧
    (∀ st2, logout cfg st now tok = (.ok ⟨true⟩, st2) →
      ∃ c, validateRefreshToken cfg.secret now tok = .ok c) := by
  constructor
  · intro resp st2 h
    cases hb : isBlacklisted st now tok with
    | true => simp [refresh, hb] at h
    | false =>
      refine ⟨rfl, ?_⟩
      cases hv : validateRefreshToken cfg.secret now tok with
      | error e => simp [refresh, hb, hv] at h
      | ok c =>
        refine ⟨c, rfl, ?_⟩
        cases hg : getRefresh st now c.userID with
        | none => simp [refresh, hb, hv, hg] at h
        | some stored =>
          by_cases hs : stored = tok
          · rw [hs]
          · simp [refresh, hb, hv, hg, hs] at h
  · intro st2 h
    cases hv : validateRefreshToken cfg.secret now tok with
    | error e => simp [logout, hv] at h
    | ok c => exact ⟨c, rfl⟩

/-- Witness for `accepted_token_invariant`: the Logout conjunct applied to
the accepted-but-blacklisted scenario. -/
theorem accepted_token_invariant_witness :
    ∃ c, validateRefreshToken demoCfg.secret 10 demoRevTok = .ok c :=
  (accepted_token_invariant demoCfg demoStBlk 10 demoRevTok).2
    (logout demoCfg demoStBlk 10 demoRevTok).2 (by rfl)

/-- C6: after a successful Logout of an unexpired refresh token `tok`, `tok`
is on the deny-list and every Refresh presenting `tok` while the deny-list
entry lives (before `tok`'s own expiry) fails with `blacklisted`; meanwhile
the ValidateToken RPC still answers `valid = true` for any live, correctly
signed access token, logout or not. -/
theorem logout_revokes_refresh_not_access (cfg : Config) (st : ServerState)
    (now : Nat) (tok : TokenStr) (c : TokenClaims)
    (hv : validateRefreshToken cfg.secret now tok = .ok c)
    (hexp : now < c.expiresAt) :
    (logout cfg st now tok).1 = .ok ⟨true⟩ ∧
    (∀ now2, now2 < c.expiresAt →
      isBlacklisted (logout cfg st now tok).2 now2 tok = true ∧
      refresh cfg (logout cfg st now tok).2 now2 tok =
        (.error .blacklisted, (logout cfg st now tok).2)) ∧
    (∀ now2 atok ca, validateAccessToken cfg.secret now2 atok = .ok ca →
      (validateTokenRPC cfg (logout cfg st now tok).2 now2 atok).1 =
        .ok ⟨true, ca.userID, ca.email,
             (ca.expiresAt : Int) - (now2 : Int)⟩) := by
  have hl : logout cfg st now tok =
      (.ok ⟨true⟩, delRefresh (addBlacklist st tok c.expiresAt) c.userID) := by
    simp [logout, hv, hexp]
  refine ⟨by rw [hl], ?_, ?_⟩
  · intro now2 hn2
    have hbl : isBlacklisted (logout cfg st now tok).2 now2 tok = true := by
      rw [hl]
      simp [isBlacklisted, delRefresh, addBlacklist, hn2]
    exact ⟨hbl, by simp [refresh, hbl]⟩
  · intro now2 atok ca hca
    simp [validateTokenRPC, hca]

/-- Witness for `logout_revokes_refresh_not_access`: concrete logout of
`demoRevTok` at time 10, replay attempted at time 50. -/
theorem logout_revokes_refresh_not_access_witness :
    refresh demoCfg (logout demoCfg demoSt0 10 demoRevTok).2 50 demoRevTok =
      (.error .blacklisted, (logout demoCfg demoSt0 10 demoRevTok).2) :=
  ((logout_revokes_refresh_not_access demoCfg demoSt0 10 demoRevTok
      demoRevClaims (by rfl) (by decide)).2.1 50 (by decide)).2

/-- C10: Register is not atomic: if the user row is persisted and a later
step fails (token generation, or the session-store write), the caller gets
an error and no tokens, yet the principal remains — a retry with the same
email fails with `alreadyExists`. -/
theorem register_not_atomic (cfg : Config) (st : ServerState)
    (now now2 : Nat) (email pw name pw2 name2 : String) (tg2 so2 : Bool)
    (hnew : existsByEmail st.users email = false) :
    (∀ r, (register cfg st now email pw name false true).1 ≠ .ok r) ∧
    existsByEmail (register cfg st now email pw name false true).2.users
      email = true ∧
    register cfg (register cfg st now email pw name false true).2 now2
        email pw2 name2 tg2 so2 =
      (.error .alreadyExists,
       (register cfg st now email pw name false true).2) ∧
    (∀ r, (register cfg st now email pw name true false).1 ≠ .ok r) ∧
    existsByEmail (register cfg st now email pw name true false).2.users
      email = true ∧
    register cfg (register cfg st now email pw name true false).2 now2
        email pw2 name2 tg2 so2 =
      (.error .alreadyExists,
       (register cfg st now email pw name true false).2) := by
  have h1 : register cfg st now email pw name false true =
      (.error .tokenGenFailed,
       { st with
           users := (email, ⟨"uid-" ++ toString st.nextId, email,
                             bcryptHash pw, name⟩) :: st.users,
           nextId := st.nextId + 1 }) := by
    simp [register, hnew]
  have h2 : register cfg st now email pw name true false =
      (.error .storeRefreshFailed,
       { st with
           users := (email, ⟨"uid-" ++ toString st.nextId, email,
                             bcryptHash pw, name⟩) :: st.users,
           nextId := st.nextId + 3 }) := by
    simp [register, hnew, generateTokenPair]
  have he1 : existsByEmail
      (register cfg st now email pw name false true).2.users email = true := by
    rw [h1]
    simp [existsByEmail]
  have he2 : existsByEmail
      (register cfg st now email pw name true false).2.users email = true := by
    rw [h2]
    simp [existsByEmail]
  refine ⟨?_, he1, ?_, ?_, he2, ?_⟩
  · intro r
    rw [h1]
    simp
  · rw [register, if_pos he1]
  · intro r
    rw [h2]
    simp
  · rw [register, if_pos he2]

/-- Witness for `register_not_atomic`: a failed store write after
registering `c@x` leaves a retry rejected with `alreadyExists`. -/
theorem register_not_atomic_witness :
    register demoCfg
        (register demoCfg demoSt0 0 "c@x" "pw" "C" true false).2 1
        "c@x" "pw" "C" true true =
      (.error .alreadyExists,
       (register demoCfg demoSt0 0 "c@x" "pw" "C" true false).2) :=
  (register_not_atomic demoCfg demoSt0 0 1 "c@x" "pw" "C" "pw" "C" true true
    (by rfl)).2.2.2.2.2

/-- `wf` restricted to the `activeRefresh` component. -/
theorem wf_active (st : ServerState) (hwf : wf st = true) :
    ∀ e ∈ st.activeRefresh, jtiBelow st.nextId e.2.1 = true := by
  rw [wf, Bool.and_eq_true] at hwf
  exact fun e he => List.all_eq_true.mp hwf.1 e he

/-- `wf` restricted to the `revoked` component. -/
theorem wf_revoked (st : ServerState) (hwf : wf st = true) :
    st.revoked.all (fun e => jtiBelow st.nextId e.1) = true := by
  rw [wf, Bool.and_eq_true] at hwf
  exact hwf.2

/-- A successful store read returns a value present in the list. -/
theorem getRefresh_some_mem (st : ServerState) (now : Nat) (uid : String)
    (tok : TokenStr) (h : getRefresh st now uid = some tok) :
    ∃ e ∈ st.activeRefresh, e.2.1 = tok := by
  rw [getRefresh] at h
  cases hf : st.activeRefresh.find? (fun e => e.1 == uid) with
  | none => simp [hf] at h
  | some e =>
    simp only [hf] at h
    by_cases hn : now < e.2.2
    · rw [if_pos hn] at h
      cases h
      exact ⟨e, List.mem_of_find?_eq_some hf, rfl⟩
    · rw [if_neg hn] at h
      cases h

/-- The shape of a successful rotation. -/
theorem refresh_success_eq (cfg : Config) (st : ServerState) (now : Nat)
    (tok : TokenStr) (c : TokenClaims)
    (hb : isBlacklisted st now tok = false)
    (hv : validateRefreshToken cfg.secret now tok = .ok c)
    (hg : getRefresh st now c.userID = some tok) :
    refresh cfg st now tok =
      (.ok ⟨TokenStr.signed ⟨c.userID, c.email, "access", now + cfg.accessTTL,
                             now, st.nextId⟩ .HS256 cfg.secret,
            cfg.accessTTL,
            TokenStr.signed ⟨c.userID, c.email, "refresh",
                             now + cfg.refreshTTL, now,
                             st.nextId + 1⟩ .HS256 cfg.secret,
            cfg.refreshTTL⟩,
       setRefresh { st with nextId := st.nextId + 2 } c.userID
         (TokenStr.signed ⟨c.userID, c.email, "refresh", now + cfg.refreshTTL,
                           now, st.nextId + 1⟩ .HS256 cfg.secret)
         (now + cfg.refreshTTL)) := by
  simp [refresh, hb, hv, hg, generateTokenPair]

/-- Reading the freshly overwritten entry back. -/
theorem getRefresh_setRefresh_self (st : ServerState) (now exp : Nat)
    (uid : String) (tok : TokenStr) (h : now < exp) :
    getRefresh (setRefresh st uid tok exp) now uid = some tok := by
  simp [getRefresh, setRefresh, h]

/-- C5: Refresh is single-use per token value: a successful `refresh` of
`tok` replaces the stored value with a freshly generated token distinct from
`tok`, so an immediately following `refresh` of `tok` fails with
`mismatch`. -/
theorem refresh_single_use (cfg : Config) (st st1 : ServerState) (now : Nat)
    (tok : TokenStr) (resp : RefreshResponse)
    (hwf : wf st = true)
    (httl : 0 < cfg.refreshTTL)
    (h : refresh cfg st now tok = (.ok resp, st1)) :
    resp.refreshToken ≠ tok ∧
    refresh cfg st1 now tok = (.error .mismatch, st1) := by
  cases hb : isBlacklisted st now tok with
  | true => simp [refresh, hb] at h
  | false =>
    cases hv : validateRefreshToken cfg.secret now tok with
    | error e => simp [refresh, hb, hv] at h
    | ok c =>
      cases hg : getRefresh st now c.userID with
      | none => simp [refresh, hb, hv, hg] at h
      | some stored =>
        by_cases hs : stored = tok
        · subst hs
          rw [refresh_success_eq cfg st now stored c hb hv hg] at h
          injection h with h1 h2
          injection h1 with h1
          subst h2
          subst h1
          obtain ⟨alg, htok, hhmac, hle, hty⟩ :=
            validateRefreshToken_ok_inv cfg.secret now stored c hv
          obtain ⟨e, he, he2⟩ := getRefresh_some_mem st now c.userID stored hg
          have hjti : c.jti < st.nextId := by
            have hb3 := wf_active st hwf e he
            rw [he2, htok] at hb3
            simpa [jtiBelow] using hb3
          have hne : TokenStr.signed
              ⟨c.userID, c.email, "refresh", now + cfg.refreshTTL, now,
               st.nextId + 1⟩ .HS256 cfg.secret ≠ stored := by
            rw [htok]
            intro heq
            injection heq with hc _ _
            have := congrArg TokenClaims.jti hc
            simp at this
            omega
          have hb2 : isBlacklisted
              (setRefresh { st with nextId := st.nextId + 2 } c.userID
                (TokenStr.signed ⟨c.userID, c.email, "refresh",
                  now + cfg.refreshTTL, now, st.nextId + 1⟩ .HS256 cfg.secret)
                (now + cfg.refreshTTL)) now stored = false := hb
          have hg2 := getRefresh_setRefresh_self
            { st with nextId := st.nextId + 2 } now (now + cfg.refreshTTL)
            c.userID
            (TokenStr.signed ⟨c.userID, c.email, "refresh",
              now + cfg.refreshTTL, now, st.nextId + 1⟩ .HS256 cfg.secret)
            (Nat.lt_add_of_pos_right httl)
          constructor
          · exact hne
          · simp [refresh, hb2, hv, hg2, hne]
        · simp [refresh, hb, hv, hg, hs] at h

/-- The shape of a successful login. -/
theorem login_success_eq (cfg : Config) (st : ServerState) (now : Nat)
    (email pw : String) (u : User)
    (hu : lookupUser st.users email = some u)
    (hp : checkPassword u pw = true) :
    login cfg st now email pw =
      (.ok ⟨u.id, u.email, u.name,
            TokenStr.signed ⟨u.id, u.email, "access", now + cfg.accessTTL,
                             now, st.nextId⟩ .HS256 cfg.secret,
            cfg.accessTTL,
            TokenStr.signed ⟨u.id, u.email, "refresh", now + cfg.refreshTTL,
                             now, st.nextId + 1⟩ .HS256 cfg.secret,
            cfg.refreshTTL⟩,
       setRefresh { st with nextId := st.nextId + 2 } u.id
         (TokenStr.signed ⟨u.id, u.email, "refresh", now + cfg.refreshTTL,
                           now, st.nextId + 1⟩ .HS256 cfg.secret)
         (now + cfg.refreshTTL)) := by
  simp [login, hu, hp, generateTokenPair]

/-- C4: two successive successful Logins for the same principal leave the
second Login's refresh token as the single stored value, so a Refresh
presenting the first Login's refresh token fails with `mismatch` (the
`SessionMismatch` of the spec), as long as the first token is unexpired and
the second session entry is still live. -/
theorem second_login_invalidates_first (cfg : Config)
    (st0 st1 st2 : ServerState) (now1 now2 now3 : Nat) (email pw : String)
    (r1 r2 : IssueResponse)
    (hwf : wf st0 = true)
    (h1 : login cfg st0 now1 email pw = (.ok r1, st1))
    (h2 : login cfg st1 now2 email pw = (.ok r2, st2))
    (ht1 : now3 ≤ now1 + cfg.refreshTTL)
    (ht2 : now3 < now2 + cfg.refreshTTL) :
    refresh cfg st2 now3 r1.refreshToken = (.error .mismatch, st2) := by
  cases hu : lookupUser st0.users email with
  | none => simp [login, hu] at h1
  | some u =>
  cases hp : checkPassword u pw with
  | false => simp [login, hu, hp] at h1
  | true =>
  rw [login_success_eq cfg st0 now1 email pw u hu hp] at h1
  injection h1 with h1a h1b
  injection h1a with h1a
  subst h1a
  rw [← h1b] at h2
  have hu2 : lookupUser (setRefresh { st0 with nextId := st0.nextId + 2 } u.id
      (TokenStr.signed ⟨u.id, u.email, "refresh", now1 + cfg.refreshTTL, now1,
        st0.nextId + 1⟩ .HS256 cfg.secret)
      (now1 + cfg.refreshTTL)).users email = some u := hu
  rw [login_success_eq cfg _ now2 email pw u hu2 hp] at h2
  injection h2 with h2a h2b
  injection h2a with h2a
  subst h2a
  have hbl : isBlacklisted st2 now3
      (TokenStr.signed ⟨u.id, u.email, "refresh", now1 + cfg.refreshTTL,
        now1, st0.nextId + 1⟩ .HS256 cfg.secret) = false := by
    rw [← h2b]
    exact isBlacklisted_fresh st0 now3
      ⟨u.id, u.email, "refresh", now1 + cfg.refreshTTL, now1,
       st0.nextId + 1⟩ .HS256 cfg.secret (wf_revoked st0 hwf)
      (Nat.le_succ_of_le (Nat.le_refl _))
  have hnl : ¬ (now1 + cfg.refreshTTL < now3) := by omega
  have hv1 : validateRefreshToken cfg.secret now3
      (TokenStr.signed ⟨u.id, u.email, "refresh", now1 + cfg.refreshTTL,
        now1, st0.nextId + 1⟩ .HS256 cfg.secret) =
      .ok ⟨u.id, u.email, "refresh", now1 + cfg.refreshTTL, now1,
           st0.nextId + 1⟩ := by
    simp [validateRefreshToken, validateToken, Alg.isHMAC, hnl]
  have hg1 : getRefresh st2 now3 u.id =
      some (TokenStr.signed ⟨u.id, u.email, "refresh", now2 + cfg.refreshTTL,
        now2, st0.nextId + 3⟩ .HS256 cfg.secret) := by
    rw [← h2b]
    exact getRefresh_setRefresh_self _ now3 (now2 + cfg.refreshTTL) u.id _ ht2
  have hne : TokenStr.signed ⟨u.id, u.email, "refresh",
        now2 + cfg.refreshTTL, now2, st0.nextId + 3⟩ .HS256 cfg.secret ≠
      TokenStr.signed ⟨u.id, u.email, "refresh", now1 + cfg.refreshTTL,
        now1, st0.nextId + 1⟩ .HS256 cfg.secret := by
    intro heq
    injection heq with hc _ _
    have hji := congrArg TokenClaims.jti hc
    simp at hji
  simp [refresh, hbl, hv1, hg1, hne]

/-- Witness for `refresh_single_use`: a concrete rotation followed by a
replay of the same token. -/
theorem refresh_single_use_witness :
    demoRespRot.refreshToken ≠ demoResp1.refreshToken ∧
    refresh demoCfg demoStRot 6 demoResp1.refreshToken =
      (.error .mismatch, demoStRot) :=
  refresh_single_use demoCfg demoSt1 demoStRot 6 demoResp1.refreshToken
    demoRespRot (by rfl) (by decide) (by rfl)

/-- Witness for `second_login_invalidates_first`: two concrete logins, then
a refresh with the first login's token. -/
theorem second_login_invalidates_first_witness :
    refresh demoCfg demoSt2 7 demoResp1.refreshToken =
      (.error .mismatch, demoSt2) :=
  second_login_invalidates_first demoCfg demoSt0 demoSt1 demoSt2 5 6 7
    "a@x" "pw" demoResp1 demoResp2 (by rfl) (by rfl) (by rfl)
    (by decide) (by decide)
